import Mathlib

/-!
Shallow embedding of `src/main.rs` of the sev-test tool.

The tool has three pieces of logic:
* `request_vcek` — builds the KDS URL from a chip id and TCB version, then
  loops: GET the URL; transport error ⇒ return Err (contextualised
  "Failed to get VCEK from URL"); status 429 ⇒ print a notice, sleep 10 s,
  retry; otherwise read the body (`?` propagates a body-read error) and
  return the bytes.
* `fetch_vcek` — opens the firmware, gets an attestation report with a fixed
  all-zero 64-byte user datum, fetches the VCEK, creates the output path's
  parent directories and writes the bytes, printing a confirmation line.
* `display_report` — gets the report with the same fixed user datum and
  prints it.

HTTP is modelled by a finite script of transport events consumed one per GET;
an exhausted script means the real loop would still be running, which the
model renders as `none`.  The filesystem is a list of directories plus an
association list of files.  Side effects (request URLs, sleeps, rate-limit
notices, console lines) are recorded in explicit traces.
-/

/-- `sev::firmware::host::TcbVersion`: the four u8 patch-level fields used by
`request_vcek` (src/main.rs line 39). -/
structure TcbVersion where
  bootloader : Nat
  tee : Nat
  snp : Nat
  microcode : Nat
deriving Repr, DecidableEq

/-- The part of `sev::firmware::guest::AttestationReport` the tool reads:
`chip_id` (64 bytes) and `reported_tcb` (src/main.rs line 71). -/
structure AttestationReport where
  chip_id : List Nat
  reported_tcb : TcbVersion
deriving Repr, DecidableEq

/-- One lowercase hex digit, as produced by the `hex` crate: 0–9 then a–f. -/
def hexDigit (n : Nat) : Char :=
  if n < 10 then Char.ofNat (48 + n) else Char.ofNat (87 + n)

/-- The two hex characters of one byte, high nibble first. -/
def hexByteChars (b : Nat) : List Char :=
  [hexDigit (b / 16), hexDigit (b % 16)]

/-- `hex::encode`: lowercase hex, two characters per byte, no separators
(src/main.rs line 34). -/
def encode (bytes : List Nat) : String :=
  String.mk (bytes.flatMap hexByteChars)

/-- Rust's `{:02}` format for an unsigned integer: decimal, zero-padded to a
minimum width of two digits (src/main.rs line 38). -/
def pad2 (n : Nat) : String :=
  if n < 10 then "0" ++ Nat.repr n else Nat.repr n

def KDS_CERT_SITE : String := "https://kdsintf.amd.com"

def KDS_VCEK : String := "/vcek/v1"

/-- The `vcek_url` built by `request_vcek` (src/main.rs lines 36–40); the
`\`-continued format literal contributes no whitespace. -/
def vcek_url (chip_id : List Nat) (reported_tcb : TcbVersion) : String :=
  KDS_CERT_SITE ++ KDS_VCEK ++ "/Genoa/" ++ encode chip_id ++
    "?blSPL=" ++ pad2 reported_tcb.bootloader ++
    "&teeSPL=" ++ pad2 reported_tcb.tee ++
    "&snpSPL=" ++ pad2 reported_tcb.snp ++
    "&ucodeSPL=" ++ pad2 reported_tcb.microcode

/-- Outcome of reading the body of one HTTP response
(`response.bytes().await`). -/
inductive BodyResult where
  | ok (bytes : List Nat)
  | err (msg : String)
deriving Repr, DecidableEq

/-- One answer of the HTTP transport to one GET: either a response with a
status code and a body outcome, or a transport-level failure (DNS,
connection, TLS). -/
inductive TransportEvent where
  | response (status : Nat) (body : BodyResult)
  | failure (msg : String)
deriving Repr, DecidableEq

/-- Observable behaviour of one run of the `request_vcek` loop:
the URL of every GET issued, the duration of every sleep (seconds), how many
rate-limit notices were printed, and the returned value.  Errors are context
chains, outermost context first, as built by `anyhow::Context`. -/
structure RunTrace where
  requestUrls : List String
  sleepSecs : List Nat
  notices : Nat
  result : Except (List String) (List Nat)
deriving Repr

/-- The `loop` of `request_vcek` (src/main.rs lines 42–59), consuming one
transport event per GET.  `none` means the script ran out while the loop was
still retrying. -/
def requestVcekLoop (url : String) : List TransportEvent → Option RunTrace
  | [] => none
  | TransportEvent.failure m :: _ =>
      some ⟨[url], [], 0, Except.error ["Failed to get VCEK from URL", m]⟩
  | TransportEvent.response status body :: rest =>
      if status = 429 then
        (requestVcekLoop url rest).map fun t =>
          ⟨url :: t.requestUrls, 10 :: t.sleepSecs, t.notices + 1, t.result⟩
      else
        match body with
        | BodyResult.ok bytes => some ⟨[url], [], 0, Except.ok bytes⟩
        | BodyResult.err m => some ⟨[url], [], 0, Except.error [m]⟩

/-- `request_vcek` (src/main.rs lines 28–60): build the URL once, then run
the retry loop against the transport script. -/
def request_vcek (chip_id : List Nat) (reported_tcb : TcbVersion)
    (events : List TransportEvent) : Option RunTrace :=
  requestVcekLoop (vcek_url chip_id reported_tcb) events

/-- Abstract filesystem: a set (as a list) of existing directories and an
association list of files to contents. -/
structure FsState where
  dirs : List String
  files : List (String × List Nat)
deriving Repr, DecidableEq

/-- Split a character list at every `'/'` (the groups between separators,
like `splitOn "/"`). -/
def splitSlash : List Char → List (List Char)
  | [] => [[]]
  | c :: cs =>
    if c = '/' then [] :: splitSlash cs
    else
      match splitSlash cs with
      | [] => [[c]]
      | g :: gs => (c :: g) :: gs

/-- The `/`-separated components of a path. -/
def pathParts (path : String) : List String :=
  (splitSlash path.data).map String.mk

/-- `Path::parent` of the output path, for the relative paths this tool is
used with: `"certs/VCEK.bin"` ↦ `"certs"`, a bare file name ↦ `""`,
the empty path ↦ none. -/
def parentOf (path : String) : Option String :=
  if path = "" then none
  else
    let parts := pathParts path
    if parts.length = 1 then some ""
    else some (String.intercalate "/" parts.dropLast)

/-- Every ancestor directory of `dir`, shortest first:
`"certs/sub"` ↦ `["certs", "certs/sub"]`. -/
def ancestors (dir : String) : List String :=
  let parts := (pathParts dir).filter (fun s => s ≠ "")
  (List.range parts.length).map fun i => String.intercalate "/" (parts.take (i + 1))

/-- `fs::create_dir_all`: create the directory and every missing ancestor;
on `""` it is a no-op (as in Rust's std). -/
def create_dir_all (dir : String) (fs : FsState) : FsState :=
  { fs with dirs := fs.dirs ++ ancestors dir }

/-- `File::create` followed by `write_all`: the file now holds exactly
`bytes`, replacing any earlier contents. -/
def writeFile (path : String) (bytes : List Nat) (fs : FsState) : FsState :=
  { fs with files := (path, bytes) :: fs.files.filter (fun e => e.1 ≠ path) }

/-- Contents of the file at `path`, if present. -/
def readFile (path : String) (fs : FsState) : Option (List Nat) :=
  (fs.files.find? (fun e => e.1 == path)).map (fun e => e.2)

/-- Environment of one invocation: the firmware-open outcome, the report
provider (an oracle from the user datum passed to `get_report`), the HTTP
transport script, and the starting filesystem.  Error payloads are the
underlying cause messages that `anyhow::Context` wraps. -/
structure World where
  fwOpen : Except String Unit
  getReport : List Nat → Except String AttestationReport
  events : List TransportEvent
  fs : FsState

/-- Observable behaviour of one `fetch_vcek` / `display_report` run: every
user datum passed to `get_report`, the GETs, sleeps and rate-limit notices of
the certificate fetch, and the console lines printed on success. -/
structure FetchTrace where
  reportUserData : List (List Nat)
  requestUrls : List String
  sleepSecs : List Nat
  notices : Nat
  printed : List String
deriving Repr, DecidableEq

/-- `let unique_data = [0u8; 64];` (src/main.rs lines 63 and 87). -/
def unique_data : List Nat := List.replicate 64 0

/-- `fetch_vcek` (src/main.rs lines 62–84): open firmware, get the report
with the fixed all-zero user datum, fetch the VCEK, then create the output
path's parent directories, write the bytes and print a confirmation.
`none` propagates an unterminated retry loop. -/
def fetch_vcek (output_path : String) (w : World) :
    Option (Except (List String) Unit × FsState × FetchTrace) :=
  match w.fwOpen with
  | Except.error e =>
      some (Except.error ["Failed to open firmware", e], w.fs, ⟨[], [], [], 0, []⟩)
  | Except.ok _ =>
    match w.getReport unique_data with
    | Except.error e =>
        some (Except.error ["Failed to get attestation report", e], w.fs,
          ⟨[unique_data], [], [], 0, []⟩)
    | Except.ok report =>
      match request_vcek report.chip_id report.reported_tcb w.events with
      | none => none
      | some t =>
        match t.result with
        | Except.error e =>
            some (Except.error ("Failed to fetch VCEK" :: e), w.fs,
              ⟨[unique_data], t.requestUrls, t.sleepSecs, t.notices, []⟩)
        | Except.ok vcek =>
          let fs1 := match parentOf output_path with
            | none => w.fs
            | some p => create_dir_all p w.fs
          some (Except.ok (), writeFile output_path vcek fs1,
            ⟨[unique_data], t.requestUrls, t.sleepSecs, t.notices,
              ["VCEK certificate saved to " ++ output_path]⟩)

/-- `display_report` (src/main.rs lines 86–101): open firmware and get the
report with the same fixed all-zero user datum, then debug-print it (the
debug rendering itself is not modelled). -/
def display_report (w : World) : Except (List String) Unit × FetchTrace :=
  match w.fwOpen with
  | Except.error e =>
      (Except.error ["Failed to open firmware", e], ⟨[], [], [], 0, []⟩)
  | Except.ok _ =>
    match w.getReport unique_data with
    | Except.error e =>
        (Except.error ["Failed to get attestation report", e],
          ⟨[unique_data], [], [], 0, []⟩)
    | Except.ok _ => (Except.ok (), ⟨[unique_data], [], [], 0, []⟩)

/-- The `--output`/`-o` value of the `fetch-vcek` subcommand, if present in
the argument list (clap's space-separated form). -/
def resolveOutput : List String → Option String
  | [] => none
  | a :: rest =>
      if a = "--output" ∨ a = "-o" then rest.head?
      else resolveOutput rest

/-- Resolution of the `fetch-vcek` output argument with clap's
`default_value = "certs/VCEK.bin"` (src/main.rs lines 21–24). -/
def fetchVcekOutputArg (args : List String) : String :=
  (resolveOutput args).getD "certs/VCEK.bin"

/-! ## Helper lemmas -/

/-- The sixteen characters `hex::encode` can emit. -/
def lowercaseHexDigits : List Char := "0123456789abcdef".data

theorem hexDigit_mem_of_lt : ∀ n < 16, hexDigit n ∈ lowercaseHexDigits := by decide

theorem flatMap_hexByteChars_length (bytes : List Nat) :
    (bytes.flatMap hexByteChars).length = 2 * bytes.length := by
  induction bytes with
  | nil => rfl
  | cons b bs ih =>
    simp only [List.flatMap_cons, List.length_append, ih, hexByteChars,
      List.length_cons, List.length_nil, List.length_map]
    ring

theorem encode_length (bytes : List Nat) : (encode bytes).length = 2 * bytes.length :=
  flatMap_hexByteChars_length bytes

theorem encode_mem_lowercase (bytes : List Nat) (hb : ∀ b ∈ bytes, b < 256) :
    ∀ c ∈ (encode bytes).data, c ∈ lowercaseHexDigits := by
  intro c hc
  obtain ⟨b, hbmem, hcb⟩ := List.mem_flatMap.mp hc
  have h256 : b < 256 := hb b hbmem
  have hdiv : b / 16 < 16 := by omega
  have hmod : b % 16 < 16 := Nat.mod_lt _ (by norm_num)
  simp only [hexByteChars, List.mem_cons, List.not_mem_nil, or_false] at hcb
  rcases hcb with h | h
  · exact h ▸ hexDigit_mem_of_lt _ hdiv
  · exact h ▸ hexDigit_mem_of_lt _ hmod

theorem pad2_length_lt_100 : ∀ v < 100, (pad2 v).length = 2 := by decide

theorem requestVcekLoop_script (url : String) (s : Nat) (B : List Nat) (hs : s ≠ 429) :
    ∀ bs : List BodyResult,
      requestVcekLoop url
          (bs.map (TransportEvent.response 429) ++
            [TransportEvent.response s (BodyResult.ok B)]) =
        some ⟨List.replicate (bs.length + 1) url, List.replicate bs.length 10,
              bs.length, Except.ok B⟩ := by
  intro bs
  induction bs with
  | nil => simp [requestVcekLoop, hs]
  | cons b rest ih =>
    simp [requestVcekLoop, ih, List.replicate_succ]

/-! ## Claim theorems -/

/-- C1: for every chip id and reported TCB, against a transport that answers
429 for the first `n` GETs and then a non-429 response with body `B`,
`request_vcek` issues `n + 1` GETs all to the same URL, sleeps a fixed 10
seconds after each 429, prints a notice each time, and returns `Ok B`;
`n` is arbitrary, so there is no maximum attempt count. -/
theorem C1_retry_until_non429 (chip_id : List Nat) (reported_tcb : TcbVersion)
    (bs : List BodyResult) (s : Nat) (B : List Nat) (hs : s ≠ 429) :
    request_vcek chip_id reported_tcb
        (bs.map (TransportEvent.response 429) ++
          [TransportEvent.response s (BodyResult.ok B)]) =
      some ⟨List.replicate (bs.length + 1) (vcek_url chip_id reported_tcb),
            List.replicate bs.length 10, bs.length, Except.ok B⟩ :=
  requestVcekLoop_script _ s B hs bs

/-- C1 witness: two 429s then a 200 with body `b"CERT"`: three GETs, two
10-second sleeps, two notices, and the body is returned. -/
theorem C1_retry_until_non429_witness :
    request_vcek (List.replicate 64 0) ⟨1, 1, 1, 1⟩
        ([BodyResult.ok [], BodyResult.ok []].map (TransportEvent.response 429) ++
          [TransportEvent.response 200 (BodyResult.ok [67, 69, 82, 84])]) =
      some ⟨List.replicate 3 (vcek_url (List.replicate 64 0) ⟨1, 1, 1, 1⟩),
            List.replicate 2 10, 2, Except.ok [67, 69, 82, 84]⟩ :=
  C1_retry_until_non429 (List.replicate 64 0) ⟨1, 1, 1, 1⟩
    [BodyResult.ok [], BodyResult.ok []] 200 [67, 69, 82, 84] (by decide)

/-- The world of C2's concrete scenario: firmware and report succeed and the
server answers 500 with body `b"error page"`. -/
def errorPageBytes : List Nat := [101, 114, 114, 111, 114, 32, 112, 97, 103, 101]

def w500 : World :=
  ⟨Except.ok (), fun _ => Except.ok ⟨List.replicate 64 0, ⟨1, 1, 1, 1⟩⟩,
    [TransportEvent.response 500 (BodyResult.ok errorPageBytes)], ⟨[], []⟩⟩

/-- C2: any response whose status is not 429 — 404 and 500 included — makes
`request_vcek` return `Ok` with the full body after that single GET, the
status inspected no further; in particular a 500 answer with body
`b"error page"` makes `fetch_vcek` write `b"error page"` to the output
file. -/
theorem C2_non429_treated_as_success (chip_id : List Nat) (reported_tcb : TcbVersion)
    (s : Nat) (B : List Nat) (rest : List TransportEvent) (hs : s ≠ 429) :
    request_vcek chip_id reported_tcb
        (TransportEvent.response s (BodyResult.ok B) :: rest) =
      some ⟨[vcek_url chip_id reported_tcb], [], 0, Except.ok B⟩ ∧
    (fetch_vcek "certs/VCEK.bin" w500).map (fun r => readFile "certs/VCEK.bin" r.2.1) =
      some (some errorPageBytes) := by
  constructor
  · simp [request_vcek, requestVcekLoop, hs]
  · rfl

/-- C2 witness: a 404 with body `[1, 2]` is returned as a success. -/
theorem C2_non429_treated_as_success_witness :
    request_vcek [] ⟨0, 0, 0, 0⟩ [TransportEvent.response 404 (BodyResult.ok [1, 2])] =
      some ⟨[vcek_url [] ⟨0, 0, 0, 0⟩], [], 0, Except.ok [1, 2]⟩ ∧
    (fetch_vcek "certs/VCEK.bin" w500).map (fun r => readFile "certs/VCEK.bin" r.2.1) =
      some (some errorPageBytes) :=
  C2_non429_treated_as_success [] ⟨0, 0, 0, 0⟩ 404 [1, 2] [] (by decide)

/-- C3: for every 64-byte chip id the URL is exactly
`https://kdsintf.amd.com/vcek/v1/Genoa/<hex>?blSPL=..&teeSPL=..&snpSPL=..&ucodeSPL=..`,
the hex part is exactly 128 characters, all from the lowercase hex alphabet
(no uppercase, no separators); the construction is a total function of its
inputs, rejecting nothing. -/
theorem C3_url_shape (chip_id : List Nat) (reported_tcb : TcbVersion)
    (hlen : chip_id.length = 64) (hbytes : ∀ b ∈ chip_id, b < 256) :
    vcek_url chip_id reported_tcb =
      "https://kdsintf.amd.com/vcek/v1/Genoa/" ++ encode chip_id ++
        "?blSPL=" ++ pad2 reported_tcb.bootloader ++
        "&teeSPL=" ++ pad2 reported_tcb.tee ++
        "&snpSPL=" ++ pad2 reported_tcb.snp ++
        "&ucodeSPL=" ++ pad2 reported_tcb.microcode ∧
    (encode chip_id).length = 128 ∧
    (∀ c ∈ (encode chip_id).data, c ∈ lowercaseHexDigits) := by
  refine ⟨rfl, ?_, encode_mem_lowercase chip_id hbytes⟩
  rw [encode_length, hlen]

/-- C3 witness: the all-zero 64-byte chip id. -/
theorem C3_url_shape_witness :
    vcek_url (List.replicate 64 0) ⟨0, 0, 0, 0⟩ =
      "https://kdsintf.amd.com/vcek/v1/Genoa/" ++ encode (List.replicate 64 0) ++
        "?blSPL=" ++ pad2 (0 : Nat) ++ "&teeSPL=" ++ pad2 (0 : Nat) ++
        "&snpSPL=" ++ pad2 (0 : Nat) ++ "&ucodeSPL=" ++ pad2 (0 : Nat) ∧
    (encode (List.replicate 64 0)).length = 128 ∧
    (∀ c ∈ (encode (List.replicate 64 0)).data, c ∈ lowercaseHexDigits) :=
  C3_url_shape (List.replicate 64 0) ⟨0, 0, 0, 0⟩ (by decide) (by decide)

/-- C4: a TCB field in `[0, 99]` renders as exactly two decimal digits
(zero-padded below 10), and a field `≥ 100` renders as its natural decimal
representation with no truncation. -/
theorem C4_tcb_two_digit (v : Nat) :
    (v ≤ 99 → (pad2 v).length = 2) ∧
    (v < 10 → pad2 v = "0" ++ Nat.repr v) ∧
    (100 ≤ v → pad2 v = Nat.repr v) := by
  refine ⟨fun h => pad2_length_lt_100 v (by omega), fun h => by simp [pad2, h], fun h => ?_⟩
  simp only [pad2]
  rw [if_neg (by omega)]

/-- C4 witness: 7 renders as two digits and 123 renders as `"123"`. -/
theorem C4_tcb_two_digit_witness :
    (pad2 7).length = 2 ∧ pad2 123 = Nat.repr 123 :=
  ⟨(C4_tcb_two_digit 7).1 (by decide), (C4_tcb_two_digit 123).2.2 (by decide)⟩

/-- C5: a transport-level failure makes `request_vcek` return an error after
exactly one GET, with no sleep and no retry, carrying the
"Failed to get VCEK from URL" context; through `fetch_vcek` the propagated
chain additionally carries the "Failed to fetch VCEK" context. -/
theorem C5_transport_error_no_retry (chip_id : List Nat) (reported_tcb : TcbVersion)
    (m : String) (rest : List TransportEvent) (output_path : String) (w : World)
    (report : AttestationReport)
    (hfw : w.fwOpen = Except.ok ())
    (hrep : w.getReport unique_data = Except.ok report)
    (hev : w.events = TransportEvent.failure m :: rest) :
    request_vcek chip_id reported_tcb (TransportEvent.failure m :: rest) =
      some ⟨[vcek_url chip_id reported_tcb], [], 0,
            Except.error ["Failed to get VCEK from URL", m]⟩ ∧
    fetch_vcek output_path w =
      some (Except.error ["Failed to fetch VCEK", "Failed to get VCEK from URL", m],
        w.fs,
        ⟨[unique_data], [vcek_url report.chip_id report.reported_tcb], [], 0, []⟩) := by
  refine ⟨rfl, ?_⟩
  simp [fetch_vcek, hfw, hrep, hev, request_vcek, requestVcekLoop]

/-- C5's concrete world: firmware and report succeed, the connection is
refused. -/
def wRefused : World :=
  ⟨Except.ok (), fun _ => Except.ok ⟨[5], ⟨1, 2, 3, 4⟩⟩,
    [TransportEvent.failure "connection refused"], ⟨[], []⟩⟩

/-- C5 witness: a refused connection yields the contextualised error after a
single GET. -/
theorem C5_transport_error_no_retry_witness :
    request_vcek [5] ⟨1, 2, 3, 4⟩ [TransportEvent.failure "connection refused"] =
      some ⟨[vcek_url [5] ⟨1, 2, 3, 4⟩], [], 0,
            Except.error ["Failed to get VCEK from URL", "connection refused"]⟩ ∧
    fetch_vcek "certs/VCEK.bin" wRefused =
      some (Except.error
          ["Failed to fetch VCEK", "Failed to get VCEK from URL", "connection refused"],
        wRefused.fs,
        ⟨[unique_data], [vcek_url [5] ⟨1, 2, 3, 4⟩], [], 0, []⟩) :=
  C5_transport_error_no_retry [5] ⟨1, 2, 3, 4⟩ "connection refused" []
    "certs/VCEK.bin" wRefused ⟨[5], ⟨1, 2, 3, 4⟩⟩ rfl rfl rfl

/-- C6: whenever `fetch_vcek` ends in an error — firmware open, report
retrieval, or the certificate fetch failing — the filesystem is exactly the
one it started with: no file and no directory was created. -/
theorem C6_no_partial_writes (output_path : String) (w : World) (e : List String)
    (fs' : FsState) (tr : FetchTrace)
    (h : fetch_vcek output_path w = some (Except.error e, fs', tr)) :
    fs' = w.fs := by
  unfold fetch_vcek at h
  repeat' split at h
  all_goals simp_all

/-- C6's concrete world: the firmware device cannot be opened while the
starting filesystem is non-empty. -/
def wOpenFail : World :=
  ⟨Except.error "No such device", fun _ => Except.error "unused", [],
    ⟨["d"], [("f", [1])]⟩⟩

/-- C6 witness: with firmware open failing, `fetch_vcek` errors and leaves
the filesystem untouched. -/
theorem C6_no_partial_writes_witness : wOpenFail.fs = wOpenFail.fs :=
  C6_no_partial_writes "certs/VCEK.bin" wOpenFail
    ["Failed to open firmware", "No such device"] wOpenFail.fs ⟨[], [], [], 0, []⟩ rfl

/-- C7: on a successful fetch, `fetch_vcek` creates every missing ancestor of
the output path's parent, writes a file holding byte-for-byte the fetched
certificate, and prints the confirmation line naming the path. -/
theorem C7_success_creates_dirs_and_writes (output_path p : String) (w : World)
    (report : AttestationReport) (t : RunTrace) (vcek : List Nat)
    (hfw : w.fwOpen = Except.ok ())
    (hrep : w.getReport unique_data = Except.ok report)
    (hreq : request_vcek report.chip_id report.reported_tcb w.events = some t)
    (hres : t.result = Except.ok vcek)
    (hpar : parentOf output_path = some p)
    (_hmiss : p ∉ w.fs.dirs) :
    fetch_vcek output_path w =
      some (Except.ok (), writeFile output_path vcek (create_dir_all p w.fs),
        ⟨[unique_data], t.requestUrls, t.sleepSecs, t.notices,
          ["VCEK certificate saved to " ++ output_path]⟩) ∧
    readFile output_path (writeFile output_path vcek (create_dir_all p w.fs)) =
      some vcek ∧
    (∀ d ∈ ancestors p,
        d ∈ (writeFile output_path vcek (create_dir_all p w.fs)).dirs) := by
  refine ⟨?_, ?_, ?_⟩
  · simp [fetch_vcek, hfw, hrep, hreq, hres, hpar]
  · simp [readFile, writeFile]
  · intro d hd
    simp only [writeFile, create_dir_all, List.mem_append]
    exact Or.inr hd

/-- C7's concrete scenario: report `⟨[7], ⟨0,0,0,0⟩⟩`, a single 200 answer
with body `b"CERT"`, output path `certs/sub/VCEK.bin` with no existing
directories. -/
def rptEx : AttestationReport := ⟨[7], ⟨0, 0, 0, 0⟩⟩

def wSub : World :=
  ⟨Except.ok (), fun _ => Except.ok rptEx,
    [TransportEvent.response 200 (BodyResult.ok [67, 69, 82, 84])], ⟨[], []⟩⟩

def tEx : RunTrace := ⟨[vcek_url [7] ⟨0, 0, 0, 0⟩], [], 0, Except.ok [67, 69, 82, 84]⟩

/-- C7 witness: fetching into `certs/sub/VCEK.bin` creates `certs` and
`certs/sub` and writes `b"CERT"` there. -/
theorem C7_success_creates_dirs_and_writes_witness :
    fetch_vcek "certs/sub/VCEK.bin" wSub =
      some (Except.ok (),
        writeFile "certs/sub/VCEK.bin" [67, 69, 82, 84] (create_dir_all "certs/sub" wSub.fs),
        ⟨[unique_data], tEx.requestUrls, tEx.sleepSecs, tEx.notices,
          ["VCEK certificate saved to " ++ "certs/sub/VCEK.bin"]⟩) ∧
    readFile "certs/sub/VCEK.bin"
        (writeFile "certs/sub/VCEK.bin" [67, 69, 82, 84] (create_dir_all "certs/sub" wSub.fs)) =
      some [67, 69, 82, 84] ∧
    (∀ d ∈ ancestors "certs/sub",
        d ∈ (writeFile "certs/sub/VCEK.bin" [67, 69, 82, 84]
              (create_dir_all "certs/sub" wSub.fs)).dirs) :=
  C7_success_creates_dirs_and_writes "certs/sub/VCEK.bin" "certs/sub" wSub rptEx tEx
    [67, 69, 82, 84] rfl rfl rfl rfl (by decide) (by decide)

/-- C8: when the `fetch-vcek` subcommand carries no `--output`/`-o`
argument, the output path resolves to exactly `certs/VCEK.bin` (clap's
declared default). -/
theorem C8_default_output (args : List String) (h : resolveOutput args = none) :
    fetchVcekOutputArg args = "certs/VCEK.bin" := by
  simp [fetchVcekOutputArg, h]

/-- C8 witness: an empty argument list resolves to the default path. -/
theorem C8_default_output_witness : fetchVcekOutputArg [] = "certs/VCEK.bin" :=
  C8_default_output [] rfl

/-- C9: in every run of either subcommand, every user datum handed to the
provider's `get_report` is the fixed all-zero 64-byte array — never a
caller-chosen or random nonce. -/
theorem C9_user_data_always_zero (output_path : String) (w : World)
    (res : Except (List String) Unit) (fs' : FsState) (tr : FetchTrace)
    (h : fetch_vcek output_path w = some (res, fs', tr)) :
    (∀ u ∈ tr.reportUserData, u = List.replicate 64 0) ∧
    (∀ u ∈ (display_report w).2.reportUserData, u = List.replicate 64 0) := by
  constructor
  · unfold fetch_vcek at h
    repeat' split at h
    any_goals exact Option.noConfusion h
    all_goals
      simp only [Option.some.injEq, Prod.mk.injEq] at h
      obtain ⟨-, -, htr⟩ := h
      subst htr
      simp [unique_data]
  · unfold display_report
    repeat' split
    all_goals simp [unique_data]

/-- C9's concrete world: a successful run end to end. -/
def wEx : World :=
  ⟨Except.ok (), fun _ => Except.ok ⟨List.replicate 64 0, ⟨1, 1, 1, 1⟩⟩,
    [TransportEvent.response 200 (BodyResult.ok [1, 2])], ⟨[], []⟩⟩

def trEx : FetchTrace :=
  ⟨[unique_data], [vcek_url (List.replicate 64 0) ⟨1, 1, 1, 1⟩], [], 0,
    ["VCEK certificate saved to " ++ "certs/VCEK.bin"]⟩

/-- C9 witness: a successful `fetch_vcek` run passes only the all-zero
datum, and so does `display_report` in the same world. -/
theorem C9_user_data_always_zero_witness :
    (∀ u ∈ trEx.reportUserData, u = List.replicate 64 0) ∧
    (∀ u ∈ (display_report wEx).2.reportUserData, u = List.replicate 64 0) :=
  C9_user_data_always_zero "certs/VCEK.bin" wEx (Except.ok ())
    (writeFile "certs/VCEK.bin" [1, 2] (create_dir_all "certs" wEx.fs)) trEx rfl

/-- C10: a non-429 response whose body read fails makes `request_vcek`
return that error at once — one GET, no sleep, no retry, and no added
context (the `?` operator propagates it bare). -/
theorem C10_body_read_error_immediate (chip_id : List Nat) (reported_tcb : TcbVersion)
    (s : Nat) (m : String) (rest : List TransportEvent) (hs : s ≠ 429) :
    request_vcek chip_id reported_tcb
        (TransportEvent.response s (BodyResult.err m) :: rest) =
      some ⟨[vcek_url chip_id reported_tcb], [], 0, Except.error [m]⟩ := by
  simp [request_vcek, requestVcekLoop, hs]

/-- C10 witness: a 200 whose body read fails with `"decode error"`. -/
theorem C10_body_read_error_immediate_witness :
    request_vcek [9] ⟨2, 2, 2, 2⟩
        [TransportEvent.response 200 (BodyResult.err "decode error")] =
      some ⟨[vcek_url [9] ⟨2, 2, 2, 2⟩], [], 0, Except.error ["decode error"]⟩ :=
  C10_body_read_error_immediate [9] ⟨2, 2, 2, 2⟩ 200 "decode error" [] (by decide)
